import Mathlib

/-!
Shallow embedding of the subscription registry and broadcast dispatcher of
the telegram-bot-proxy repository (src/db.rs, src/api.rs, src/bot.rs).

The SQLite storage collaborator (schema in migrations/, UNIQUE constraint on
the (telegram_id, channel_name) pair) is modelled as an in-memory list of
rows with explicit state passing; each operation additionally returns the
list of storage/delivery events it performed, so that claims about "no
storage access" and "no delivery invocation" are observable. The store is
modelled as reliable: the database-error branches of the source (which map
to StorageFailure / HTTP 500) are never taken in this deterministic model.
-/

/-- Model of Rust `char::is_alphanumeric` (true on the Unicode Alphabetic
property and the Nd/Nl/No numeric categories), as called by
`validate_channel_name` in src/db.rs line 21. The model is exact for every
code point below U+0100 (ASCII plus Latin-1: the ordinal indicators U+00AA
and U+00BA, micro sign U+00B5, superscripts U+00B2/U+00B3/U+00B9, vulgar
fractions U+00BC–U+00BE, and the accented letters U+00C0–U+00FF minus the
multiplication and division signs). Code points at or above U+0100 are
outside the modelled fragment and are mapped to false. -/
def char_is_alphanumeric (c : Char) : Bool :=
  let n := c.toNat
  decide ((0x30 ≤ n ∧ n ≤ 0x39) ∨ (0x41 ≤ n ∧ n ≤ 0x5A) ∨ (0x61 ≤ n ∧ n ≤ 0x7A)
    ∨ n = 0xAA ∨ n = 0xB5 ∨ n = 0xBA
    ∨ n = 0xB2 ∨ n = 0xB3 ∨ n = 0xB9 ∨ (0xBC ≤ n ∧ n ≤ 0xBE)
    ∨ (0xC0 ≤ n ∧ n ≤ 0xD6) ∨ (0xD8 ≤ n ∧ n ≤ 0xF6) ∨ (0xF8 ≤ n ∧ n ≤ 0xFF))

/-- Embedding of `validate_channel_name` (src/db.rs lines 15-22): empty
strings are rejected, otherwise every character must satisfy Rust
`char::is_alphanumeric` or be an underscore. -/
def validate_channel_name (channel_name : String) : Bool :=
  if channel_name.isEmpty then false
  else channel_name.data.all (fun c => char_is_alphanumeric c || c == '_')

/-- The validity predicate as worded by the spec (section 3): non-empty and
every character an ASCII letter, ASCII digit, or underscore. Written from
the spec, to be compared against `validate_channel_name` from the source. -/
def spec_ascii_channel_valid (s : String) : Bool :=
  !s.isEmpty && s.data.all (fun c => c.isAlpha || c.isDigit || c == '_')

/-- The subscription store: the `subscriptions` table, one row per
subscription, as (telegram_id, channel_name) pairs in insertion order.
The creation timestamp column is not modelled (no claim mentions it). -/
structure Store where
  rows : List (Int × String)
deriving DecidableEq

/-- Storage and delivery events, recorded so that theorems can observe
whether an operation touched the store or invoked the delivery capability. -/
inductive Ev where
  | dbInsert : Ev
  | dbDelete : Ev
  | dbSelect : Ev
  | deliver : Int → Ev
deriving DecidableEq

/-- Errors surfaced by the registry. In the source these are `anyhow`
string errors; `uniqueViolation` stands for the SQLite error whose message
contains "UNIQUE constraint failed", which src/bot.rs line 45 detects, and
`storageFailure` for any other storage-layer error. -/
inductive DbError where
  | invalidChannelName : DbError
  | uniqueViolation : DbError
  | storageFailure : DbError
deriving DecidableEq

/-- The error text src/bot.rs matches on, modelling `e.to_string()`. -/
def db_error_message : DbError → String
  | .invalidChannelName => "Invalid channel name"
  | .uniqueViolation =>
      "UNIQUE constraint failed: subscriptions.telegram_id, subscriptions.channel_name"
  | .storageFailure => "database error"

/-- Substring test, modelling Rust `String::contains` as used at
src/bot.rs line 45. -/
def str_contains (hay needle : String) : Bool :=
  decide (needle.data <:+: hay.data)

/-- Modelled from the spec: the storage collaborator's
insert-with-uniqueness-constraint (section 6). The UNIQUE constraint over
the (telegram_id, channel_name) pair lives in the migrations directory,
which is not among the provided sources; per spec section 3 the pair is
unique and a duplicate insert fails distinguishably. -/
def insert_subscription (st : Store) (telegram_id : Int) (channel_name : String) :
    Except DbError Store :=
  if (telegram_id, channel_name) ∈ st.rows then .error .uniqueViolation
  else .ok ⟨st.rows ++ [(telegram_id, channel_name)]⟩

/-- Model of the storage collaborator's delete-by-match (the DELETE query
at src/db.rs lines 40-46); returns the new store and `rows_affected`. -/
def delete_subscription (st : Store) (telegram_id : Int) (channel_name : String) :
    Store × Nat :=
  let kept := st.rows.filter (fun row => !(row.1 == telegram_id && row.2 == channel_name))
  (⟨kept⟩, st.rows.length - kept.length)

/-- Embedding of `subscribe` (src/db.rs lines 24-37): validates the channel
name, then attempts the INSERT; a constraint violation is returned to the
caller as the error, with the store unchanged. -/
def subscribe (st : Store) (telegram_id : Int) (channel_name : String) :
    Except DbError Unit × Store × List Ev :=
  if validate_channel_name channel_name = false then
    (.error .invalidChannelName, st, [])
  else
    match insert_subscription st telegram_id channel_name with
    | .ok st' => (.ok (), st', [.dbInsert])
    | .error e => (.error e, st, [.dbInsert])

/-- Embedding of `unsubscribe` (src/db.rs lines 39-49): executes the DELETE
directly (no channel-name validation in the source) and returns whether any
row was affected. -/
def unsubscribe (st : Store) (telegram_id : Int) (channel_name : String) :
    Except DbError Bool × Store × List Ev :=
  let out := delete_subscription st telegram_id channel_name
  (.ok (out.2 != 0), out.1, [.dbDelete])

/-- Embedding of `get_subscribers` (src/db.rs lines 51-59): SELECT
telegram_id FROM subscriptions WHERE channel_name = ?. -/
def get_subscribers (st : Store) (channel_name : String) : List Int × List Ev :=
  ((st.rows.filter (fun row => row.2 == channel_name)).map Prod.fst, [.dbSelect])

/-- Embedding of the SELECT DISTINCT telegram_id query of `broadcast`
(src/api.rs lines 163-172): the distinct union of recipients over every
channel; this is the registry operation the spec calls `all_recipients`. -/
def all_recipients (st : Store) : List Int × List Ev :=
  ((st.rows.map Prod.fst).dedup, [.dbSelect])

/-- HTTP-level responses produced by the two message endpoints of
src/api.rs, restricted to the fields the claims mention. -/
inductive ApiResponse where
  | badRequest : String → ApiResponse
  | okSend : Nat → Nat → String → ApiResponse
  | okBroadcast : Nat → Nat → Nat → ApiResponse
deriving DecidableEq

/-- The error body both endpoints use for an oversize message
(src/api.rs lines 55 and 158). -/
def too_long_error : String := "Message too long (max 1000 chars)"

/-- The error body for a malformed channel name (src/api.rs line 61). -/
def invalid_channel_error : String :=
  "Invalid channel name. Only letters, numbers, and underscores are allowed."

/-- The fan-out both endpoints perform (src/api.rs lines 84-92 and 192-200,
identical code inlined in each handler; the spec calls it `dispatch`): one
delivery invocation per recipient, whose outcome is given by the external
delivery capability `send_ok`, then the tally: `sent` is the number of
successful results and `errors` the remainder. Returns (sent, errors,
delivery events). -/
def dispatch (recipients : List Int) (send_ok : Int → Bool) :
    Nat × Nat × List Ev :=
  let results := recipients.map send_ok
  let sent := (results.filter (fun success => success)).length
  (sent, results.length - sent, recipients.map Ev.deliver)

/-- Embedding of the `send_message` handler (src/api.rs lines 47-99):
length check on `message.len()` (UTF-8 byte length in Rust), channel-name
validation, subscriber lookup, early return when no subscribers, else
fan-out and tally. -/
def send_message (message channel_name : String) (st : Store)
    (send_ok : Int → Bool) : ApiResponse × List Ev :=
  if message.utf8ByteSize > 1000 then (.badRequest too_long_error, [])
  else if validate_channel_name channel_name = false then
    (.badRequest invalid_channel_error, [])
  else
    let subs := get_subscribers st channel_name
    if subs.1.isEmpty then (.okSend 0 0 channel_name, subs.2)
    else
      let out := dispatch subs.1 send_ok
      (.okSend out.1 out.2.1 channel_name, subs.2 ++ out.2.2)

/-- Embedding of the `broadcast` handler (src/api.rs lines 142-207):
non-empty check, length check on `message.len()` (UTF-8 bytes), distinct
recipient lookup, early return when there are no subscribers, else fan-out
and tally. -/
def broadcast (message : String) (st : Store) (send_ok : Int → Bool) :
    ApiResponse × List Ev :=
  if message.isEmpty then (.badRequest "Message cannot be empty", [])
  else if message.utf8ByteSize > 1000 then (.badRequest too_long_error, [])
  else
    let subs := all_recipients st
    let total := subs.1.length
    if total = 0 then (.okBroadcast 0 0 0, subs.2)
    else
      let out := dispatch subs.1 send_ok
      (.okBroadcast out.1 out.2.1 total, subs.2 ++ out.2.2)

/-- The two bot commands of src/bot.rs lines 92-99. -/
inductive Command where
  | subscribeCmd : String → Command
  | unsubscribeCmd : String → Command
deriving DecidableEq

/-- The invalid-channel reply of src/bot.rs lines 30 and 58. -/
def invalid_name_reply : String :=
  "Invalid channel name. Only letters, numbers, and underscores are allowed."

/-- Embedding of `handle_command` (src/bot.rs lines 19-90): validates the
channel name before calling the registry, then renders the registry outcome
as a reply string; an error whose message contains "UNIQUE constraint
failed" is rendered as the already-subscribed reply (line 45). Quoting of
the channel name inside replies is elided. Returns (reply, store, events). -/
def handle_command (chat_id : Int) (cmd : Command) (st : Store) :
    String × Store × List Ev :=
  match cmd with
  | .subscribeCmd channel_name =>
    if validate_channel_name channel_name = false then
      (invalid_name_reply, st, [])
    else
      match subscribe st chat_id channel_name with
      | (.ok _, st', tr) =>
          ("Successfully subscribed to " ++ channel_name, st', tr)
      | (.error e, st', tr) =>
          (if str_contains (db_error_message e) "UNIQUE constraint failed" then
            "You are already subscribed to " ++ channel_name
          else
            "Error subscribing to " ++ channel_name ++ ": " ++ db_error_message e,
          st', tr)
  | .unsubscribeCmd channel_name =>
    if validate_channel_name channel_name = false then
      (invalid_name_reply, st, [])
    else
      match unsubscribe st chat_id channel_name with
      | (.ok true, st', tr) =>
          ("Successfully unsubscribed from " ++ channel_name, st', tr)
      | (.ok false, st', tr) =>
          ("You are not subscribed to " ++ channel_name, st', tr)
      | (.error e, st', tr) =>
          ("Error unsubscribing from " ++ channel_name ++ ": " ++ db_error_message e,
          st', tr)

deriving instance DecidableEq for Except

/-! Helper lemmas shared by the claim theorems. -/

lemma get_subscribers_events (st : Store) (c : String) :
    (get_subscribers st c).2 = [Ev.dbSelect] := rfl

lemma all_recipients_events (st : Store) :
    (all_recipients st).2 = [Ev.dbSelect] := rfl

lemma isEmpty_false_of_bytes_pos (s : String) (h : s.utf8ByteSize ≠ 0) :
    s.isEmpty = false := by
  cases he : s.isEmpty
  · rfl
  · have hs : s = "" := (String.isEmpty_iff s).mp he
    subst hs
    exact absurd rfl h

lemma delete_subscription_no_match (st : Store) (r : Int) (c : String)
    (h : (r, c) ∉ st.rows) :
    delete_subscription st r c = (st, 0) := by
  have hk : st.rows.filter (fun row => !(row.1 == r && row.2 == c)) = st.rows := by
    apply List.filter_eq_self.mpr
    intro row hrow
    cases h1 : (row.1 == r) with
    | false => simp [h1]
    | true =>
      cases h2 : (row.2 == c) with
      | false => simp [h2]
      | true =>
        have hr : row = (r, c) := by
          obtain ⟨a, b⟩ := row
          simp only [Prod.mk.injEq]
          exact ⟨by simpa using h1, by simpa using h2⟩
        exact absurd (hr ▸ hrow) h
  simp only [delete_subscription]
  rw [hk, Nat.sub_self]

lemma unsubscribe_no_match (st : Store) (r : Int) (c : String)
    (h : (r, c) ∉ st.rows) :
    unsubscribe st r c = (.ok false, st, [Ev.dbDelete]) := by
  unfold unsubscribe
  rw [delete_subscription_no_match st r c h]
  rfl

lemma subscribe_fresh (st : Store) (r : Int) (c : String)
    (hv : validate_channel_name c = true) (hnot : (r, c) ∉ st.rows) :
    subscribe st r c = (.ok (), ⟨st.rows ++ [(r, c)]⟩, [Ev.dbInsert]) := by
  unfold subscribe insert_subscription
  rw [hv]
  simp [hnot]

lemma subscribe_dup (st : Store) (r : Int) (c : String)
    (hv : validate_channel_name c = true) (hmem : (r, c) ∈ st.rows) :
    subscribe st r c = (.error .uniqueViolation, st, [Ev.dbInsert]) := by
  unfold subscribe insert_subscription
  rw [hv]
  simp [hmem]

/-! C1. -/

/-- C1 counterexample: the string "café" is accepted by
`validate_channel_name` even though its last character is not an ASCII
letter, ASCII digit, or underscore, so acceptance is not equivalent to the
ASCII-only predicate the spec states; `char::is_alphanumeric` is a Unicode
test, not an ASCII one. -/
theorem validate_channel_name_accepts_non_ascii :
    validate_channel_name "café" = true
    ∧ spec_ascii_channel_valid "café" = false := by
  decide

/-- C1 (amended): a channel name is accepted by validation if and only if
it is non-empty and every character is Unicode-alphanumeric (in the sense
of Rust `char::is_alphanumeric`) or an underscore; "news_1" is valid while
"news 1", "news-1", "" and "news.1" are invalid, but non-ASCII alphanumeric
names such as "café" are also accepted. -/
theorem validate_channel_name_unicode_charwise :
    (∀ s : String, validate_channel_name s
      = (!s.isEmpty && s.data.all (fun c => char_is_alphanumeric c || c == '_')))
    ∧ validate_channel_name "news_1" = true
    ∧ validate_channel_name "news 1" = false
    ∧ validate_channel_name "news-1" = false
    ∧ validate_channel_name "" = false
    ∧ validate_channel_name "news.1" = false
    ∧ validate_channel_name "café" = true := by
  refine ⟨fun s => ?_, by decide, by decide, by decide, by decide, by decide, by decide⟩
  unfold validate_channel_name
  cases h : s.isEmpty <;> simp [h]

/-! C2. -/

/-- C2 counterexample: on the invalid channel name "news 1", the registry
`unsubscribe` does not return the invalid-channel-name outcome and does
perform a storage access (the DELETE runs unconditionally: src/db.rs has no
validation in `unsubscribe`). -/
theorem unsubscribe_invalid_name_reaches_storage :
    (unsubscribe (Store.mk []) 1 "news 1").1 ≠ Except.error DbError.invalidChannelName
    ∧ (unsubscribe (Store.mk []) 1 "news 1").2.2 ≠ ([] : List Ev) := by
  decide

/-- C2 (amended): for every invalid channel name, `subscribe` returns the
InvalidChannelName outcome with no storage access and the store unchanged;
the registry-level `unsubscribe`, however, performs no validation of its
own: it executes the DELETE (one storage access) and returns NotSubscribed,
leaving a well-formed store (one whose rows all carry valid channel names)
unchanged. Channel-name validation for unsubscribe happens in the
conversational front-end, which replies with the invalid-name message
without any storage access, as it also does for subscribe. -/
theorem invalid_channel_mutation_amended (st : Store) (r : Int) (c : String)
    (hinv : validate_channel_name c = false)
    (hwf : ∀ row ∈ st.rows, validate_channel_name row.2 = true) :
    subscribe st r c = (.error .invalidChannelName, st, [])
    ∧ unsubscribe st r c = (.ok false, st, [Ev.dbDelete])
    ∧ handle_command r (Command.unsubscribeCmd c) st = (invalid_name_reply, st, [])
    ∧ handle_command r (Command.subscribeCmd c) st = (invalid_name_reply, st, []) := by
  have hnot : (r, c) ∉ st.rows := by
    intro hmem
    have := hwf (r, c) hmem
    rw [hinv] at this
    exact Bool.false_ne_true this
  refine ⟨?_, unsubscribe_no_match st r c hnot, ?_, ?_⟩
  · unfold subscribe
    rw [hinv]
    simp
  · simp [handle_command, hinv]
  · simp [handle_command, hinv]

/-- C2 witness: the amended theorem applied at the empty store, recipient
1, and the invalid channel name "news 1". -/
theorem invalid_channel_mutation_amended_witness :
    validate_channel_name "news 1" = false
    ∧ (∀ row ∈ (Store.mk []).rows, validate_channel_name row.2 = true)
    ∧ (subscribe (Store.mk []) 1 "news 1"
        = (.error .invalidChannelName, Store.mk [], [])
      ∧ unsubscribe (Store.mk []) 1 "news 1" = (.ok false, Store.mk [], [Ev.dbDelete])
      ∧ handle_command 1 (Command.unsubscribeCmd "news 1") (Store.mk [])
          = (invalid_name_reply, Store.mk [], [])
      ∧ handle_command 1 (Command.subscribeCmd "news 1") (Store.mk [])
          = (invalid_name_reply, Store.mk [], [])) :=
  ⟨by decide, by decide,
    invalid_channel_mutation_amended (Store.mk []) 1 "news 1" (by decide) (by decide)⟩

/-! C8. -/

/-- C8: for every recipient and valid channel with no matching
subscription, `unsubscribe` returns Ok(false) — the NotSubscribed outcome,
a normal result, not an error — performs exactly the one DELETE, and
leaves the store completely unchanged. -/
theorem unsubscribe_not_subscribed_unchanged (st : Store) (r : Int) (c : String)
    (_hv : validate_channel_name c = true) (hnot : (r, c) ∉ st.rows) :
    unsubscribe st r c = (.ok false, st, [Ev.dbDelete]) :=
  unsubscribe_no_match st r c hnot

/-- C8 witness: the theorem applied at a one-row store, recipient 9, and
the absent valid channel "news". -/
theorem unsubscribe_not_subscribed_unchanged_witness :
    validate_channel_name "news" = true
    ∧ (9, "news") ∉ (Store.mk [(9, "tech")]).rows
    ∧ unsubscribe (Store.mk [(9, "tech")]) 9 "news"
        = (.ok false, Store.mk [(9, "tech")], [Ev.dbDelete]) :=
  ⟨by decide, by decide,
    unsubscribe_not_subscribed_unchanged (Store.mk [(9, "tech")]) 9 "news"
      (by decide) (by decide)⟩

/-! C3. -/

lemma str_contains_unique_violation :
    str_contains (db_error_message DbError.uniqueViolation) "UNIQUE constraint failed" = true := by
  decide

/-- C3: subscribing an already-subscribed valid (recipient, channel) pair a
second time yields the uniqueViolation outcome — the error src/bot.rs
detects and renders as the already-subscribed reply — which is a different
outcome from a generic storage failure, and the registry afterwards still
contains exactly one matching subscription. Stated over the
subscribe-then-subscribe scenario of the spec. -/
theorem duplicate_subscribe_already_subscribed (st : Store) (r : Int) (c : String)
    (hv : validate_channel_name c = true) (hnot : (r, c) ∉ st.rows) :
    (subscribe st r c).1 = Except.ok ()
    ∧ (subscribe ((subscribe st r c).2.1) r c).1 = Except.error DbError.uniqueViolation
    ∧ DbError.uniqueViolation ≠ DbError.storageFailure
    ∧ ((subscribe ((subscribe st r c).2.1) r c).2.1).rows.count (r, c) = 1
    ∧ (handle_command r (Command.subscribeCmd c) ((subscribe st r c).2.1)).1
        = "You are already subscribed to " ++ c := by
  have h1 := subscribe_fresh st r c hv hnot
  have hmem : (r, c) ∈ (Store.mk (st.rows ++ [(r, c)])).rows := by simp
  have h2 := subscribe_dup (Store.mk (st.rows ++ [(r, c)])) r c hv hmem
  rw [h1]
  refine ⟨rfl, ?_, by decide, ?_, ?_⟩
  · rw [h2]
  · rw [h2]
    simp [List.count_append, List.count_eq_zero.mpr hnot]
  · simp [handle_command, hv, h2, str_contains_unique_violation]

/-- C3 witness: the theorem applied at the empty store, recipient 7, and
channel "news". -/
theorem duplicate_subscribe_already_subscribed_witness :
    validate_channel_name "news" = true
    ∧ (7, "news") ∉ (Store.mk []).rows
    ∧ ((subscribe (Store.mk []) 7 "news").1 = Except.ok ()
      ∧ (subscribe ((subscribe (Store.mk []) 7 "news").2.1) 7 "news").1
          = Except.error DbError.uniqueViolation
      ∧ DbError.uniqueViolation ≠ DbError.storageFailure
      ∧ ((subscribe ((subscribe (Store.mk []) 7 "news").2.1) 7 "news").2.1).rows.count (7, "news") = 1
      ∧ (handle_command 7 (Command.subscribeCmd "news") ((subscribe (Store.mk []) 7 "news").2.1)).1
          = "You are already subscribed to " ++ "news") :=
  ⟨by decide, by decide,
    duplicate_subscribe_already_subscribed (Store.mk []) 7 "news" (by decide) (by decide)⟩

/-! C7. -/

/-- C7: for every valid (recipient, channel) pair not already subscribed,
`subscribe` succeeds and an immediate `get_subscribers` on that channel
returns a list containing that recipient exactly once. -/
theorem subscribe_then_recipients_once (st : Store) (r : Int) (c : String)
    (hv : validate_channel_name c = true) (hnot : (r, c) ∉ st.rows) :
    (subscribe st r c).1 = Except.ok ()
    ∧ (get_subscribers ((subscribe st r c).2.1) c).1.count r = 1 := by
  rw [subscribe_fresh st r c hv hnot]
  refine ⟨rfl, ?_⟩
  unfold get_subscribers
  rw [List.filter_append, List.map_append, List.count_append]
  have h2 : List.filter (fun row => row.2 == c) [(r, c)] = [(r, c)] := by simp
  rw [h2]
  have h0 : ((st.rows.filter (fun row => row.2 == c)).map Prod.fst).count r = 0 := by
    rw [List.count_eq_zero]
    intro hmem
    rcases List.mem_map.mp hmem with ⟨row, hrow, hfst⟩
    rcases List.mem_filter.mp hrow with ⟨hrows, hsnd⟩
    apply hnot
    have hr : row = (r, c) := by
      obtain ⟨a, b⟩ := row
      simp only [Prod.mk.injEq]
      exact ⟨hfst, by simpa using hsnd⟩
    rwa [hr] at hrows
  rw [h0]
  simp

/-- C7 witness: the theorem applied at the empty store, recipient 5, and
channel "news". -/
theorem subscribe_then_recipients_once_witness :
    validate_channel_name "news" = true
    ∧ (5, "news") ∉ (Store.mk []).rows
    ∧ ((subscribe (Store.mk []) 5 "news").1 = Except.ok ()
      ∧ (get_subscribers ((subscribe (Store.mk []) 5 "news").2.1) "news").1.count 5 = 1) :=
  ⟨by decide, by decide,
    subscribe_then_recipients_once (Store.mk []) 5 "news" (by decide) (by decide)⟩

/-! C4. -/

lemma sent_eq_filter_length (l : List Int) (f : Int → Bool) :
    ((l.map f).filter (fun success => success)).length = (l.filter f).length := by
  induction l with
  | nil => rfl
  | cons a t ih =>
    cases h : f a <;> simp [List.filter_cons, h, ih]

/-- C4: for every non-empty recipient list, the dispatch fan-out reports
sent equal to the number of recipients whose delivery invocation succeeded
and errors equal to the number of recipients minus sent; the tally is the
same for any permutation of the recipient list (completion order does not
matter, the tally being a commutative count), and dispatch always returns a
report — in particular when every delivery fails it reports zero sent and
everything in errors. -/
theorem dispatch_tally_order_independent (recipients other : List Int)
    (send_ok : Int → Bool) (_hne : recipients ≠ []) (hperm : other.Perm recipients) :
    (dispatch recipients send_ok).1 = (recipients.filter send_ok).length
    ∧ (dispatch recipients send_ok).2.1
        = recipients.length - (recipients.filter send_ok).length
    ∧ (dispatch other send_ok).1 = (dispatch recipients send_ok).1
    ∧ (dispatch other send_ok).2.1 = (dispatch recipients send_ok).2.1
    ∧ ((∀ x ∈ recipients, send_ok x = false) →
        dispatch recipients send_ok = (0, recipients.length, recipients.map Ev.deliver)) := by
  have key : ∀ l : List Int, (dispatch l send_ok).1 = (l.filter send_ok).length
      ∧ (dispatch l send_ok).2.1 = l.length - (l.filter send_ok).length := by
    intro l
    unfold dispatch
    exact ⟨sent_eq_filter_length l send_ok, by simp [sent_eq_filter_length l send_ok]⟩
  have hl : other.length = recipients.length := hperm.length_eq
  have hf : (other.filter send_ok).length = (recipients.filter send_ok).length :=
    (hperm.filter send_ok).length_eq
  refine ⟨(key recipients).1, (key recipients).2, ?_, ?_, ?_⟩
  · rw [(key other).1, (key recipients).1, hf]
  · rw [(key other).2, (key recipients).2, hl, hf]
  · intro hall
    have hnil : recipients.filter send_ok = [] := by
      apply List.filter_eq_nil_iff.mpr
      intro a ha
      simp [hall a ha]
    have h0 : ((recipients.map send_ok).filter (fun success => success)).length = 0 := by
      rw [sent_eq_filter_length, hnil]
      rfl
    unfold dispatch
    simp [h0]

/-- C4 witness: the theorem applied to the recipient list [1, 2, 3], its
permutation [3, 1, 2], and a delivery capability that succeeds exactly for
recipients other than 2. -/
theorem dispatch_tally_order_independent_witness :
    ([1, 2, 3] : List Int) ≠ []
    ∧ ([3, 1, 2] : List Int).Perm [1, 2, 3]
    ∧ ((dispatch [1, 2, 3] (fun x => x != 2)).1
          = (([1, 2, 3] : List Int).filter (fun x => x != 2)).length
      ∧ (dispatch [1, 2, 3] (fun x => x != 2)).2.1
          = ([1, 2, 3] : List Int).length
              - (([1, 2, 3] : List Int).filter (fun x => x != 2)).length
      ∧ (dispatch [3, 1, 2] (fun x => x != 2)).1 = (dispatch [1, 2, 3] (fun x => x != 2)).1
      ∧ (dispatch [3, 1, 2] (fun x => x != 2)).2.1
          = (dispatch [1, 2, 3] (fun x => x != 2)).2.1
      ∧ ((∀ x ∈ ([1, 2, 3] : List Int), (fun x : Int => x != 2) x = false) →
          dispatch [1, 2, 3] (fun x => x != 2)
            = (0, ([1, 2, 3] : List Int).length, ([1, 2, 3] : List Int).map Ev.deliver))) :=
  ⟨by decide, by decide,
    dispatch_tally_order_independent [1, 2, 3] [3, 1, 2] (fun x => x != 2)
      (by decide) (by decide)⟩

/-! Guard lemmas for the two message endpoints, shared by C5, C6, C10. -/

lemma send_message_too_long (message channel_name : String) (st : Store)
    (send_ok : Int → Bool) (h : 1000 < message.utf8ByteSize) :
    send_message message channel_name st send_ok
      = (ApiResponse.badRequest too_long_error, []) := by
  unfold send_message
  rw [if_pos h]

lemma broadcast_too_long (message : String) (st : Store)
    (send_ok : Int → Bool) (h : 1000 < message.utf8ByteSize) :
    broadcast message st send_ok = (ApiResponse.badRequest too_long_error, []) := by
  have hne : message.isEmpty = false := isEmpty_false_of_bytes_pos message (by omega)
  unfold broadcast
  rw [hne]
  rw [if_neg (by simp), if_pos h]

lemma send_message_not_too_long (message channel_name : String) (st : Store)
    (send_ok : Int → Bool) (h : message.utf8ByteSize ≤ 1000) :
    (send_message message channel_name st send_ok).1
      ≠ ApiResponse.badRequest too_long_error := by
  have hgt : ¬ (message.utf8ByteSize > 1000) := by omega
  unfold send_message
  rw [if_neg hgt]
  split
  · simp only [ApiResponse.badRequest.injEq]
    decide
  · dsimp only
    split <;> simp

lemma broadcast_not_too_long (message : String) (st : Store)
    (send_ok : Int → Bool) (h : message.utf8ByteSize ≤ 1000) :
    (broadcast message st send_ok).1 ≠ ApiResponse.badRequest too_long_error := by
  have hgt : ¬ (message.utf8ByteSize > 1000) := by omega
  unfold broadcast
  cases he : message.isEmpty with
  | true =>
    rw [if_pos rfl]
    simp only [ApiResponse.badRequest.injEq]
    decide
  | false =>
    rw [if_neg (by simp [he]), if_neg hgt]
    dsimp only
    split <;> simp

/-! C5. -/

/-- C5: a message that passes the callers' guards but targets an empty
recipient set produces a zero report with no delivery invocation — for
`send_message` a channel with no subscribers yields (sent 0, errors 0)
after the single subscriber SELECT and nothing else; for `broadcast` an
empty subscriber table yields (sent 0, errors 0, total 0) after the single
DISTINCT SELECT and nothing else; and the fan-out itself on an empty
recipient list performs zero delivery invocations and reports (0, 0). -/
theorem empty_recipients_zero_report (message channel_name : String) (st : Store)
    (send_ok : Int → Bool)
    (hlen : message.utf8ByteSize ≤ 1000)
    (hch : validate_channel_name channel_name = true)
    (hsubs : (get_subscribers st channel_name).1 = [])
    (hne : message.isEmpty = false)
    (hall : (all_recipients st).1 = []) :
    send_message message channel_name st send_ok
      = (ApiResponse.okSend 0 0 channel_name, [Ev.dbSelect])
    ∧ broadcast message st send_ok = (ApiResponse.okBroadcast 0 0 0, [Ev.dbSelect])
    ∧ dispatch [] send_ok = (0, 0, []) := by
  have hgt : ¬ (message.utf8ByteSize > 1000) := by omega
  refine ⟨?_, ?_, rfl⟩
  · unfold send_message
    rw [if_neg hgt, hch]
    simp [hsubs, get_subscribers_events]
  · unfold broadcast
    rw [hne]
    rw [if_neg (by simp), if_neg hgt]
    simp [hall, all_recipients_events]

/-- C5 witness: the theorem applied with the message "hi", the channel
"news", the empty store, and an always-succeeding delivery capability. -/
theorem empty_recipients_zero_report_witness :
    ("hi" : String).utf8ByteSize ≤ 1000
    ∧ validate_channel_name "news" = true
    ∧ (get_subscribers (Store.mk []) "news").1 = []
    ∧ ("hi" : String).isEmpty = false
    ∧ (all_recipients (Store.mk [])).1 = []
    ∧ (send_message "hi" "news" (Store.mk []) (fun _ => true)
        = (ApiResponse.okSend 0 0 "news", [Ev.dbSelect])
      ∧ broadcast "hi" (Store.mk []) (fun _ => true)
          = (ApiResponse.okBroadcast 0 0 0, [Ev.dbSelect])
      ∧ dispatch [] (fun _ => true) = (0, 0, [])) :=
  ⟨by decide, by decide, by decide, by decide, by decide,
    empty_recipients_zero_report "hi" "news" (Store.mk []) (fun _ => true)
      (by decide) (by decide) (by decide) (by decide) (by decide)⟩

/-! C6. -/

/-- C6: in both message endpoints, a message of exactly the 1000-byte cap
passes the length check (the result is never the too-long rejection), while
a message of 1001 bytes is rejected with the InvalidInput (bad request)
outcome and an empty event trace — no storage access and no delivery
invocation has occurred. -/
theorem message_cap_boundary (m_at m_over channel_name : String) (st : Store)
    (send_ok : Int → Bool)
    (h_at : m_at.utf8ByteSize = 1000) (h_over : m_over.utf8ByteSize = 1001) :
    (send_message m_at channel_name st send_ok).1 ≠ ApiResponse.badRequest too_long_error
    ∧ (broadcast m_at st send_ok).1 ≠ ApiResponse.badRequest too_long_error
    ∧ send_message m_over channel_name st send_ok
        = (ApiResponse.badRequest too_long_error, [])
    ∧ broadcast m_over st send_ok = (ApiResponse.badRequest too_long_error, []) :=
  ⟨send_message_not_too_long m_at channel_name st send_ok (le_of_eq h_at),
    broadcast_not_too_long m_at st send_ok (le_of_eq h_at),
    send_message_too_long m_over channel_name st send_ok (by omega),
    broadcast_too_long m_over st send_ok (by omega)⟩

set_option maxRecDepth 8192

/-- C6 witness: the theorem applied to a 1000-byte message and a 1001-byte
message of ASCII characters. -/
theorem message_cap_boundary_witness :
    (String.mk (List.replicate 1000 'a')).utf8ByteSize = 1000
    ∧ (String.mk (List.replicate 1001 'a')).utf8ByteSize = 1001
    ∧ ((send_message (String.mk (List.replicate 1000 'a')) "news" (Store.mk [])
          (fun _ => true)).1 ≠ ApiResponse.badRequest too_long_error
      ∧ (broadcast (String.mk (List.replicate 1000 'a')) (Store.mk [])
          (fun _ => true)).1 ≠ ApiResponse.badRequest too_long_error
      ∧ send_message (String.mk (List.replicate 1001 'a')) "news" (Store.mk [])
          (fun _ => true) = (ApiResponse.badRequest too_long_error, [])
      ∧ broadcast (String.mk (List.replicate 1001 'a')) (Store.mk [])
          (fun _ => true) = (ApiResponse.badRequest too_long_error, [])) :=
  ⟨by decide, by decide,
    message_cap_boundary (String.mk (List.replicate 1000 'a'))
      (String.mk (List.replicate 1001 'a')) "news" (Store.mk []) (fun _ => true)
      (by decide) (by decide)⟩

/-! C10. -/

/-- C10: the 1000-unit cap in both endpoints is measured in UTF-8 bytes of
the message, not characters: a message whose UTF-8 encoding exceeds 1000
bytes is rejected even when it has at most 1000 characters, and a message
of at most 1000 bytes is never rejected as too long. -/
theorem message_cap_in_bytes (m_wide m_ok channel_name : String) (st : Store)
    (send_ok : Int → Bool)
    (_hchars : m_wide.length ≤ 1000) (hbytes : 1000 < m_wide.utf8ByteSize)
    (hok : m_ok.utf8ByteSize ≤ 1000) :
    send_message m_wide channel_name st send_ok
      = (ApiResponse.badRequest too_long_error, [])
    ∧ broadcast m_wide st send_ok = (ApiResponse.badRequest too_long_error, [])
    ∧ (send_message m_ok channel_name st send_ok).1 ≠ ApiResponse.badRequest too_long_error
    ∧ (broadcast m_ok st send_ok).1 ≠ ApiResponse.badRequest too_long_error :=
  ⟨send_message_too_long m_wide channel_name st send_ok hbytes,
    broadcast_too_long m_wide st send_ok hbytes,
    send_message_not_too_long m_ok channel_name st send_ok hok,
    broadcast_not_too_long m_ok st send_ok hok⟩

/-- C10 witness: the theorem applied to a 501-character message of
two-byte characters (1002 UTF-8 bytes, under the character cap but over
the byte cap) and to the two-byte message "hi". -/
theorem message_cap_in_bytes_witness :
    (String.mk (List.replicate 501 'é')).length ≤ 1000
    ∧ 1000 < (String.mk (List.replicate 501 'é')).utf8ByteSize
    ∧ ("hi" : String).utf8ByteSize ≤ 1000
    ∧ (send_message (String.mk (List.replicate 501 'é')) "news" (Store.mk [])
          (fun _ => true) = (ApiResponse.badRequest too_long_error, [])
      ∧ broadcast (String.mk (List.replicate 501 'é')) (Store.mk [])
          (fun _ => true) = (ApiResponse.badRequest too_long_error, [])
      ∧ (send_message "hi" "news" (Store.mk []) (fun _ => true)).1
          ≠ ApiResponse.badRequest too_long_error
      ∧ (broadcast "hi" (Store.mk []) (fun _ => true)).1
          ≠ ApiResponse.badRequest too_long_error) :=
  ⟨by decide, by decide, by decide,
    message_cap_in_bytes (String.mk (List.replicate 501 'é')) "hi" "news"
      (Store.mk []) (fun _ => true) (by decide) (by decide) (by decide)⟩

/-! C9. -/

/-- C9: the distinct-recipients query behind `broadcast` never lists a
recipient twice (its result is duplicate-free for every store state), and
after subscribing recipient 5 to channels "a" and "b" it returns a list
containing 5 exactly once. -/
theorem all_recipients_distinct :
    (∀ st : Store, (all_recipients st).1.Nodup)
    ∧ (all_recipients
        ((subscribe ((subscribe (Store.mk []) 5 "a").2.1) 5 "b").2.1)).1.count 5 = 1 := by
  refine ⟨fun st => List.nodup_dedup _, by decide⟩
